import Mathlib

/-!
Shallow embedding of `watcher.py` from the blue-green-nginx-failover
repository, and proofs about the claims made by its specification.

Modelling conventions:
* wall-clock instants (Python `time.time()` floats) are rationals;
* module-level configuration constants read from the environment
  (`ERROR_RATE_THRESHOLD`, `WINDOW_SIZE`, `ALERT_COOLDOWN_SEC`,
  `ACTIVE_POOL`, `MAINTENANCE_MODE`, `SLACK_WEBHOOK_URL`) are gathered in a
  `Config` record passed explicitly; `defaultConfig` carries the defaults;
* each mutating Python method becomes a function from the old state (and
  the values the method reads from the outside world, such as the current
  time or the HTTP response) to the returned value paired with the new
  state;
* Python dict update on `last_alert_times` is modelled on an association
  list looked up by first match, with update by shadowing cons.
-/

namespace Watcher

/-- The module-level configuration constants of `watcher.py`
(lines 24-29), read once from the environment. -/
structure Config where
  slackWebhookUrl : String
  errorRateThreshold : ℚ
  windowSize : ℕ
  alertCooldownSec : ℚ
  activePool : String
  maintenanceMode : Bool
  deriving Repr, DecidableEq

/-- The documented defaults: threshold 2.0 %, window 200, cooldown 300 s,
active pool "blue", maintenance mode off, no webhook configured. -/
def defaultConfig : Config :=
  { slackWebhookUrl := ""
    errorRateThreshold := 2
    windowSize := 200
    alertCooldownSec := 300
    activePool := "blue"
    maintenanceMode := false }

/-- Python `FailoverDetector._is_valid_pool` (lines 94-96):
`pool and pool.strip() and pool in ['blue', 'green']` read as a boolean.
`pool.strip()` is truthy exactly when the string has a character that is
not whitespace. -/
def isValidPool (pool : String) : Bool :=
  pool ≠ "" && pool.toList.any (fun c => !c.isWhitespace) &&
    (pool = "blue" || pool = "green")

/-- The mutable fields of `FailoverDetector` (lines 42-45).
`lastPool = none` models Python `None`. -/
structure FailoverState where
  lastPool : Option String
  lastAlertTime : ℚ
  initialized : Bool
  deriving Repr, DecidableEq

/-- Python `FailoverDetector.__init__` (lines 42-45). -/
def FailoverState.init : FailoverState :=
  { lastPool := none, lastAlertTime := 0, initialized := false }

/-- The result triple of `detect_failover`: (is_failover, from_pool, to_pool). -/
abbrev FailoverEvent := Bool × Option String × Option String

/-- Python `FailoverDetector.detect_failover` (lines 47-92).  `now` is the value
of `time.time()` observed at line 65; the Python truthiness test
`if self.last_pool and ...` is the `some lp`/`lp ≠ ""` match below. -/
def detectFailover (cfg : Config) (st : FailoverState) (currentPool : String)
    (now : ℚ) : FailoverEvent × FailoverState :=
  if cfg.maintenanceMode then ((false, none, none), st)
  else if !isValidPool currentPool then ((false, none, none), st)
  else if !st.initialized then
    ((false, none, none),
      { st with lastPool := some currentPool, initialized := true })
  else
    match st.lastPool with
    | some lp =>
        if lp ≠ "" ∧ lp ≠ currentPool then
          if now - st.lastAlertTime < cfg.alertCooldownSec then
            ((false, none, none), { st with lastPool := some currentPool })
          else
            ((true, some lp, some currentPool),
              { st with lastPool := some currentPool, lastAlertTime := now })
        else ((false, none, none), { st with lastPool := some currentPool })
    | none => ((false, none, none), { st with lastPool := some currentPool })

/-- The mutable fields of `ErrorRateMonitor` (lines 102-105).
`requestWindow` holds `true` for an error, `false` for a success. -/
structure ErrorMonitorState where
  requestWindow : List Bool
  lastAlertTime : ℚ
  alertActive : Bool
  deriving Repr, DecidableEq

/-- Python `ErrorRateMonitor.__init__` (lines 102-105). -/
def ErrorMonitorState.init : ErrorMonitorState :=
  { requestWindow := [], lastAlertTime := 0, alertActive := false }

/-- The error classification of `add_request` (lines 109-128): a request is
an error when the HTTP status is ≥ 500, or when the upstream status is
present, not "-", and either parses to an integer ≥ 500 or is one of the
sentinel strings "timeout"/"error". -/
def isErrorRequest (statusCode : ℤ) (upstreamStatus : Option String) : Bool :=
  let fromStatus : Bool := 500 ≤ statusCode
  let fromUpstream : Bool :=
    match upstreamStatus with
    | none => false
    | some us =>
        us ≠ "" && us ≠ "-" &&
          (match us.toInt? with
           | some c => 500 ≤ c
           | none => us = "timeout" || us = "error")
  fromStatus || fromUpstream

/-- The window update of `add_request` (lines 130-134): append the flag,
then `pop(0)` once if the length exceeds `WINDOW_SIZE`. -/
def pushFlag (cfg : Config) (w : List Bool) (isError : Bool) : List Bool :=
  let grown := w ++ [isError]
  if cfg.windowSize < grown.length then grown.drop 1 else grown

/-- Python `ErrorRateMonitor.add_request` (lines 107-140); the periodic logging at
lines 136-140 has no effect on the state. -/
def addRequest (cfg : Config) (st : ErrorMonitorState) (statusCode : ℤ)
    (upstreamStatus : Option String) : ErrorMonitorState :=
  { st with requestWindow :=
      pushFlag cfg st.requestWindow (isErrorRequest statusCode upstreamStatus) }

/-- Python `sum(self.request_window)`: the number of `true` flags. -/
def errorCount (w : List Bool) : ℕ := (w.filter id).length

/-- Python `ErrorRateMonitor.should_alert` (lines 142-172).  `now` is the
`time.time()` value read at line 152.  Returns the boolean result paired
with the updated state. -/
def shouldAlert (cfg : Config) (st : ErrorMonitorState) (now : ℚ) :
    Bool × ErrorMonitorState :=
  if cfg.maintenanceMode then (false, st)
  else if st.requestWindow.length < cfg.windowSize then (false, st)
  else if now - st.lastAlertTime < cfg.alertCooldownSec then (false, st)
  else
    let errorRate : ℚ :=
      (errorCount st.requestWindow * 100 : ℚ) / st.requestWindow.length
    if cfg.errorRateThreshold ≤ errorRate then
      (true, { st with lastAlertTime := now, alertActive := true })
    else
      (false, { st with alertActive := false })

/-- Python `ErrorRateMonitor.get_error_rate` (lines 174-178). -/
def getErrorRate (st : ErrorMonitorState) : ℚ :=
  if st.requestWindow = [] then 0
  else (errorCount st.requestWindow * 100 : ℚ) / st.requestWindow.length

/-- The mutable field of `AlertHandler` (lines 184-185): the Python dict
`last_alert_times`, modelled as an association list looked up by first
match. -/
structure AlertHandlerState where
  lastAlertTimes : List (String × ℚ)
  deriving Repr, DecidableEq

/-- Python `AlertHandler.__init__` (lines 184-185): an empty dict. -/
def AlertHandlerState.init : AlertHandlerState := { lastAlertTimes := [] }

/-- Python `alert_type in self.last_alert_times` and the dict read. -/
def lookupAlertTime (st : AlertHandlerState) (alertType : String) : Option ℚ :=
  st.lastAlertTimes.lookup alertType

/-- Python dict assignment of `current_time` to `alert_type`,
modelled by a shadowing cons (the new binding is found first). -/
def setAlertTime (st : AlertHandlerState) (alertType : String) (now : ℚ) :
    AlertHandlerState :=
  { lastAlertTimes := (alertType, now) :: st.lastAlertTimes }

/-- The outcome of the `requests.post` call at lines 271-275, as observed by
the caller: `some code` is a response with HTTP status `code`; `none` is a
raised exception (connection failure or timeout), landing in the
`except` branch at lines 285-287. -/
abbrev TransportOutcome := Option ℕ

/-- The tail of `send_slack_alert` from line 219 on: the payload is built and
posted; on HTTP 200 the cooldown timestamp for `alertType` is recorded and
`True` returned (lines 277-280); on any other response or on an exception
the state is unchanged and `False` returned (lines 281-287). -/
def deliverAlert (st : AlertHandlerState) (alertType : String) (now : ℚ)
    (resp : TransportOutcome) : Bool × AlertHandlerState :=
  match resp with
  | some code =>
      if code = 200 then (true, setAlertTime st alertType now) else (false, st)
  | none => (false, st)

/-- Python `AlertHandler.send_slack_alert` (lines 201-287).  `now` is the
`time.time()` value read at line 213, `resp` the outcome of the HTTP post.
The message text and payload do not affect the returned boolean or the
state, so they are not modelled. -/
def sendSlackAlert (cfg : Config) (st : AlertHandlerState) (alertType : String)
    (now : ℚ) (resp : TransportOutcome) : Bool × AlertHandlerState :=
  if cfg.slackWebhookUrl = "" then (false, st)
  else if cfg.maintenanceMode then (false, st)
  else
    match lookupAlertTime st alertType with
    | some t =>
        if now - t < cfg.alertCooldownSec then (false, st)
        else deliverAlert st alertType now resp
    | none => deliverAlert st alertType now resp

/-- Python `f.readline()` restricted to the bytes already in the file:
starting at the read position, return everything up to and including the
first newline, or everything to the current end of file when no newline is
present yet (this is exactly what `readline` returns at EOF on a file whose
final line has no terminator). -/
def readlineChars : List Char → List Char
  | [] => []
  | c :: rest => if c = '\n' then [c] else c :: readlineChars rest

/-- One line read by `tail_logs` (line 438) from a file currently holding
`contents`, with the read cursor at byte `pos`. -/
def readline (contents : List Char) (pos : ℕ) : List Char :=
  readlineChars (contents.drop pos)

/-- One iteration of the `while True` loop of `tail_logs` (lines 437-443):
`line = f.readline()`; if the line is non-empty it is handed to
`process_line` and the cursor advances to `f.tell()`; otherwise the loop
sleeps.  Returns the line passed to `process_line` (if any) and the new
cursor. -/
def tailStep (contents : List Char) (pos : ℕ) : Option (List Char) × ℕ :=
  let line := readline contents pos
  if line = [] then (none, pos) else (some line, pos + line.length)

/-- The window after a whole sequence of flags has been appended through the
window-update of `add_request`. -/
def pushFlags (cfg : Config) (w : List Bool) (flags : List Bool) : List Bool :=
  flags.foldl (pushFlag cfg) w

/-- A whole sequence of `add_request` calls, each given a status code and an
upstream status. -/
def addRequests (cfg : Config) (st : ErrorMonitorState)
    (reqs : List (ℤ × Option String)) : ErrorMonitorState :=
  reqs.foldl (fun s r => addRequest cfg s r.1 r.2) st

/-- One interaction with the `ErrorRateMonitor`: either an `add_request`
call or a `should_alert` call made at wall-clock instant `now`. -/
inductive MonitorEvent where
  | add (statusCode : ℤ) (upstreamStatus : Option String)
  | check (now : ℚ)
  deriving Repr, DecidableEq

/-- The state effect of one interaction with the monitor. -/
def monitorStep (cfg : Config) (st : ErrorMonitorState) :
    MonitorEvent → ErrorMonitorState
  | .add c u => addRequest cfg st c u
  | .check now => (shouldAlert cfg st now).2

/-- The monitor state after an arbitrary schedule of interleaved
`add_request` and `should_alert` calls. -/
def runMonitor (cfg : Config) (st : ErrorMonitorState)
    (evs : List MonitorEvent) : ErrorMonitorState :=
  evs.foldl (monitorStep cfg) st

/-! ### Helper lemmas -/

/-- While the cooldown has not elapsed, `should_alert` returns `False` and
leaves the state untouched, whatever the window holds (the cooldown test at
line 155 precedes the rate computation, and the two earlier early returns
also leave the state unchanged). -/
theorem shouldAlert_of_cooldown (cfg : Config) (st : ErrorMonitorState)
    (now : ℚ) (h : now - st.lastAlertTime < cfg.alertCooldownSec) :
    shouldAlert cfg st now = (false, st) := by
  unfold shouldAlert
  split_ifs <;> rfl

/-- Lemma: `add_request` never touches `last_alert_time`. -/
theorem addRequest_lastAlertTime (cfg : Config) (st : ErrorMonitorState)
    (c : ℤ) (u : Option String) :
    (addRequest cfg st c u).lastAlertTime = st.lastAlertTime := rfl

/-- Over any schedule whose `should_alert` calls all happen strictly before
`t0 + cooldown`, a monitor whose last alert fired at `t0` keeps
`last_alert_time = t0`. -/
theorem runMonitor_lastAlertTime (cfg : Config) (st : ErrorMonitorState)
    (t0 : ℚ) (evs : List MonitorEvent) (h0 : st.lastAlertTime = t0)
    (hevs : ∀ t, MonitorEvent.check t ∈ evs → t < t0 + cfg.alertCooldownSec) :
    (runMonitor cfg st evs).lastAlertTime = t0 := by
  induction evs generalizing st with
  | nil => exact h0
  | cons ev evs ih =>
      cases ev with
      | add c u =>
          exact ih (addRequest cfg st c u) (by rw [addRequest_lastAlertTime]; exact h0)
            (fun t ht => hevs t (List.mem_cons_of_mem _ ht))
      | check now =>
          have hnow : now < t0 + cfg.alertCooldownSec :=
            hevs now (List.mem_cons_self _ _)
          have hc : now - st.lastAlertTime < cfg.alertCooldownSec := by
            rw [h0]; linarith
          have hstep : monitorStep cfg st (MonitorEvent.check now) = st := by
            show (shouldAlert cfg st now).2 = st
            rw [shouldAlert_of_cooldown cfg st now hc]
          calc (runMonitor cfg st (MonitorEvent.check now :: evs)).lastAlertTime
              = (runMonitor cfg (monitorStep cfg st (MonitorEvent.check now))
                  evs).lastAlertTime := rfl
            _ = t0 := by
                rw [hstep]
                exact ih st h0 (fun t ht => hevs t (List.mem_cons_of_mem _ ht))

/-- The length evolution of one window push, below capacity. -/
theorem pushFlag_length (cfg : Config) (w : List Bool) (e : Bool)
    (h : w.length ≤ cfg.windowSize) :
    (pushFlag cfg w e).length = min (w.length + 1) cfg.windowSize := by
  simp only [pushFlag]
  split_ifs with hgt <;>
    simp only [List.length_drop, List.length_append, List.length_singleton] at * <;>
    omega

/-- Feeding a sequence of flags through the window update keeps exactly the
most recent `windowSize` observations: the resulting window is the suffix of
`w ++ flags` obtained by dropping everything beyond capacity. -/
theorem pushFlags_eq_drop (cfg : Config) (flags : List Bool) (w : List Bool)
    (h : w.length ≤ cfg.windowSize) :
    pushFlags cfg w flags =
      (w ++ flags).drop (w.length + flags.length - cfg.windowSize) := by
  induction flags generalizing w with
  | nil =>
      simp only [pushFlags, List.foldl_nil, List.append_nil, List.length_nil,
        Nat.add_zero]
      rw [Nat.sub_eq_zero_of_le h, List.drop_zero]
  | cons e fs ih =>
      have hstep : pushFlags cfg w (e :: fs) = pushFlags cfg (pushFlag cfg w e) fs := rfl
      have hlen1 : (w ++ [e]).length = w.length + 1 := by
        simp only [List.length_append, List.length_singleton]
      by_cases hlt : w.length < cfg.windowSize
      · have hpush : pushFlag cfg w e = w ++ [e] := by
          simp only [pushFlag]
          split_ifs with hgt
          · rw [hlen1] at hgt; omega
          · rfl
        have hlen : (w ++ [e]).length ≤ cfg.windowSize := by rw [hlen1]; omega
        rw [hstep, hpush, ih (w ++ [e]) hlen, List.append_assoc,
          List.singleton_append]
        congr 1
        simp only [hlen1, List.length_cons]
        omega
      · have hpush : pushFlag cfg w e = (w ++ [e]).drop 1 := by
          simp only [pushFlag]
          split_ifs with hgt
          · rfl
          · rw [hlen1] at hgt; omega
        have hlen : ((w ++ [e]).drop 1).length ≤ cfg.windowSize := by
          simp only [List.length_drop, hlen1]; omega
        rw [hstep, hpush, ih _ hlen]
        have hsplit : (w ++ [e]).drop 1 ++ fs = ((w ++ [e]) ++ fs).drop 1 :=
          (List.drop_append_of_le_length (by rw [hlen1]; omega)).symm
        rw [hsplit, List.drop_drop, List.append_assoc, List.singleton_append]
        congr 1
        simp only [List.length_drop, hlen1, List.length_cons]
        omega

/-- When maintenance is off, the window is full and the cooldown has
elapsed, `should_alert` answers exactly the threshold comparison of
line 165. -/
theorem shouldAlert_fst (cfg : Config) (st : ErrorMonitorState) (now : ℚ)
    (hm : cfg.maintenanceMode = false)
    (hw : cfg.windowSize ≤ st.requestWindow.length)
    (hc : cfg.alertCooldownSec ≤ now - st.lastAlertTime) :
    (shouldAlert cfg st now).1 =
      decide (cfg.errorRateThreshold ≤
        (errorCount st.requestWindow * 100 : ℚ) / st.requestWindow.length) := by
  have hw' : ¬ st.requestWindow.length < cfg.windowSize := not_lt.mpr hw
  have hc' : ¬ now - st.lastAlertTime < cfg.alertCooldownSec := not_lt.mpr hc
  simp only [shouldAlert, hm, Bool.false_eq_true, if_false, hw', hc']
  split_ifs with h <;> simp [h]

/-- The window component of a run of `add_request` calls is the fold of the
window update over the classified flags. -/
theorem addRequests_window (cfg : Config) (st : ErrorMonitorState)
    (reqs : List (ℤ × Option String)) :
    (addRequests cfg st reqs).requestWindow =
      pushFlags cfg st.requestWindow
        (reqs.map fun r => isErrorRequest r.1 r.2) := by
  induction reqs generalizing st with
  | nil => rfl
  | cons r rs ih => exact ih (addRequest cfg st r.1 r.2)

/-! ### Claim theorems -/

set_option maxRecDepth 8000 in
/-- C1: with window size 200, threshold 2.0 %, maintenance off and the
cooldown elapsed (last alert at 0, check at 1000), `should_alert` returns
`True` on a full window of 196 successes followed by 4 failures (rate
exactly 2.0 %, inclusive boundary) and `False` on 197 successes followed by
3 failures (rate 1.5 %). -/
theorem c1_threshold_boundary :
    (shouldAlert defaultConfig
      { requestWindow := List.replicate 196 false ++ List.replicate 4 true
        lastAlertTime := 0, alertActive := false } 1000).1 = true ∧
    (shouldAlert defaultConfig
      { requestWindow := List.replicate 197 false ++ List.replicate 3 true
        lastAlertTime := 0, alertActive := false } 1000).1 = false := by
  constructor
  · rw [shouldAlert_fst _ _ _ rfl (by decide) (by norm_num [defaultConfig])]
    rw [show errorCount (List.replicate 196 false ++ List.replicate 4 true) = 4
          from by decide,
        show (List.replicate 196 false ++ List.replicate 4 true).length = 200
          from by decide]
    simp only [decide_eq_true_eq]
    norm_num [defaultConfig]
  · rw [shouldAlert_fst _ _ _ rfl (by decide) (by norm_num [defaultConfig])]
    rw [show errorCount (List.replicate 197 false ++ List.replicate 3 true) = 3
          from by decide,
        show (List.replicate 197 false ++ List.replicate 3 true).length = 200
          from by decide]
    simp only [decide_eq_false_iff_not]
    norm_num [defaultConfig]

/-- C2: for every sequence of requests fed to `add_request` starting from a
fresh monitor, the window length is exactly `min n W` (so never exceeds the
capacity `W`), and the window holds precisely the most recent
`min n W` classified flags in arrival order — the `drop` of everything
older, i.e. FIFO eviction of the oldest. -/
theorem c2_window_fifo (cfg : Config) (reqs : List (ℤ × Option String)) :
    (addRequests cfg ErrorMonitorState.init reqs).requestWindow.length =
      min reqs.length cfg.windowSize ∧
    (addRequests cfg ErrorMonitorState.init reqs).requestWindow =
      (reqs.map fun r => isErrorRequest r.1 r.2).drop
        (reqs.length - cfg.windowSize) := by
  have hwin : (addRequests cfg ErrorMonitorState.init reqs).requestWindow =
      (reqs.map fun r => isErrorRequest r.1 r.2).drop
        (reqs.length - cfg.windowSize) := by
    rw [addRequests_window]
    have h0 : (ErrorMonitorState.init.requestWindow : List Bool).length ≤
        cfg.windowSize := by
      simp [ErrorMonitorState.init]
    rw [pushFlags_eq_drop cfg _ _ h0]
    simp [ErrorMonitorState.init]
  refine ⟨?_, hwin⟩
  rw [hwin]
  simp only [List.length_drop, List.length_map]
  omega

/-- C10: `should_alert` writes `last_alert_time` exactly when it returns
`True`: a `False` return leaves `last_alert_time` untouched, while a `True`
return sets it to the current time — a genuine change whenever the cooldown
is positive. -/
theorem c10_shouldAlert_frame (cfg : Config) (st : ErrorMonitorState)
    (now : ℚ) :
    ((shouldAlert cfg st now).1 = false →
      (shouldAlert cfg st now).2.lastAlertTime = st.lastAlertTime) ∧
    ((shouldAlert cfg st now).1 = true →
      (shouldAlert cfg st now).2.lastAlertTime = now ∧
        (0 < cfg.alertCooldownSec →
          (shouldAlert cfg st now).2.lastAlertTime ≠ st.lastAlertTime)) := by
  simp only [shouldAlert]
  split_ifs with h1 h2 h3 h4
  · exact ⟨fun _ => rfl, by simp⟩
  · exact ⟨fun _ => rfl, by simp⟩
  · exact ⟨fun _ => rfl, by simp⟩
  · refine ⟨by simp, fun _ => ⟨rfl, fun hpos heq => ?_⟩⟩
    rw [show ({ st with lastAlertTime := now, alertActive := true } :
        ErrorMonitorState).lastAlertTime = now from rfl] at heq
    rw [heq] at h3
    simp only [sub_self] at h3
    exact h3 hpos
  · exact ⟨fun _ => rfl, by simp⟩

/-- Witness for C10: a fresh monitor checked at time 0 returns `False`, and
the theorem yields that its `last_alert_time` is unchanged (still 0). -/
theorem c10_witness :
    (shouldAlert defaultConfig ErrorMonitorState.init 0).1 = false ∧
    (shouldAlert defaultConfig ErrorMonitorState.init 0).2.lastAlertTime = 0 :=
  ⟨by decide,
    (c10_shouldAlert_frame defaultConfig ErrorMonitorState.init 0).1 (by decide)⟩

/-- C3: once the error-rate alert has fired at `t0` (so
`last_alert_time = t0`), every `should_alert` call strictly before
`t0 + cooldown` — across any interleaving of `add_request` and
`should_alert` calls — returns `False` and leaves `last_alert_time = t0`,
whatever the window holds; and a call at exactly `t0 + cooldown`, with
maintenance off, the window full and the rate still at or above the
threshold, returns `True`. -/
theorem c3_cooldown_schedule (cfg : Config) (st : ErrorMonitorState) (t0 : ℚ)
    (evs : List MonitorEvent) (h0 : st.lastAlertTime = t0)
    (hevs : ∀ t, MonitorEvent.check t ∈ evs → t < t0 + cfg.alertCooldownSec) :
    (runMonitor cfg st evs).lastAlertTime = t0 ∧
    (∀ t, t < t0 + cfg.alertCooldownSec →
      (shouldAlert cfg (runMonitor cfg st evs) t).1 = false) ∧
    (cfg.maintenanceMode = false →
      cfg.windowSize ≤ (runMonitor cfg st evs).requestWindow.length →
      cfg.errorRateThreshold ≤
        (errorCount (runMonitor cfg st evs).requestWindow * 100 : ℚ) /
          (runMonitor cfg st evs).requestWindow.length →
      (shouldAlert cfg (runMonitor cfg st evs)
        (t0 + cfg.alertCooldownSec)).1 = true) := by
  have hlat := runMonitor_lastAlertTime cfg st t0 evs h0 hevs
  refine ⟨hlat, ?_, ?_⟩
  · intro t ht
    have hc : t - (runMonitor cfg st evs).lastAlertTime < cfg.alertCooldownSec := by
      rw [hlat]; linarith
    rw [shouldAlert_of_cooldown _ _ _ hc]
  · intro hm hw hr
    rw [shouldAlert_fst _ _ _ hm hw (by rw [hlat]; linarith)]
    exact decide_eq_true hr

set_option maxRecDepth 8000 in
/-- Witness for C3: after an alert at `t0 = 100` with 4 errors in the full
window, one more error request arrives (window now 5/200); the check at 399
(still inside the 300 s cooldown) returns `False` and keeps
`last_alert_time = 100`, while the check at exactly 400 returns `True`. -/
theorem c3_witness :
    (runMonitor defaultConfig
      { requestWindow := List.replicate 196 false ++ List.replicate 4 true
        lastAlertTime := 100, alertActive := true }
      [MonitorEvent.add 503 none]).lastAlertTime = 100 ∧
    (shouldAlert defaultConfig
      (runMonitor defaultConfig
        { requestWindow := List.replicate 196 false ++ List.replicate 4 true
          lastAlertTime := 100, alertActive := true }
        [MonitorEvent.add 503 none]) 399).1 = false ∧
    (shouldAlert defaultConfig
      (runMonitor defaultConfig
        { requestWindow := List.replicate 196 false ++ List.replicate 4 true
          lastAlertTime := 100, alertActive := true }
        [MonitorEvent.add 503 none]) 400).1 = true := by
  have h := c3_cooldown_schedule defaultConfig
    { requestWindow := List.replicate 196 false ++ List.replicate 4 true
      lastAlertTime := 100, alertActive := true } 100
    [MonitorEvent.add 503 none] rfl
    (by intro t ht; simp at ht)
  have h400 : (100 : ℚ) + defaultConfig.alertCooldownSec = 400 := by
    norm_num [defaultConfig]
  have hrate : defaultConfig.errorRateThreshold ≤
      (errorCount (runMonitor defaultConfig
        { requestWindow := List.replicate 196 false ++ List.replicate 4 true
          lastAlertTime := 100, alertActive := true }
        [MonitorEvent.add 503 none]).requestWindow * 100 : ℚ) /
        (runMonitor defaultConfig
          { requestWindow := List.replicate 196 false ++ List.replicate 4 true
            lastAlertTime := 100, alertActive := true }
          [MonitorEvent.add 503 none]).requestWindow.length := by
    rw [show errorCount (runMonitor defaultConfig
        { requestWindow := List.replicate 196 false ++ List.replicate 4 true
          lastAlertTime := 100, alertActive := true }
        [MonitorEvent.add 503 none]).requestWindow = 5 from by decide,
      show (runMonitor defaultConfig
        { requestWindow := List.replicate 196 false ++ List.replicate 4 true
          lastAlertTime := 100, alertActive := true }
        [MonitorEvent.add 503 none]).requestWindow.length = 200 from by decide]
    norm_num [defaultConfig]
  have h3 := h.2.2 rfl (by decide) hrate
  rw [h400] at h3
  exact ⟨h.1, h.2.1 399 (by norm_num [defaultConfig]), h3⟩

/-- C4: with maintenance off, the first observation of any valid pool by an
uninitialized detector is silent: it returns (False, None, None), adopts the
pool as the last-known pool and sets `initialized` — for whichever valid
pool was observed. -/
theorem c4_first_observation_silent (cfg : Config) (st : FailoverState)
    (p : String) (now : ℚ) (hm : cfg.maintenanceMode = false)
    (hv : isValidPool p = true) (hi : st.initialized = false) :
    detectFailover cfg st p now =
      ((false, none, none),
        { st with lastPool := some p, initialized := true }) := by
  simp [detectFailover, hm, hv, hi]

/-- Witness for C4: a fresh detector observing "green" at time 7 emits no
event and records "green" as baseline. -/
theorem c4_witness :
    detectFailover defaultConfig FailoverState.init "green" 7 =
      ((false, none, none),
        { lastPool := some "green", lastAlertTime := 0, initialized := true }) :=
  c4_first_observation_silent defaultConfig FailoverState.init "green" 7
    rfl (by decide) rfl

/-- C5: a tracking detector that sees a valid pool different from the
last-known one while still inside the cooldown emits no event, but still
advances the last-known pool to the new value and leaves `last_alert_time`
unchanged. -/
theorem c5_cooldown_silent_tracking (cfg : Config) (st : FailoverState)
    (p q : String) (now : ℚ) (hm : cfg.maintenanceMode = false)
    (hv : isValidPool p = true) (hi : st.initialized = true)
    (hq : st.lastPool = some q) (hne : q ≠ "") (hdiff : q ≠ p)
    (hcool : now - st.lastAlertTime < cfg.alertCooldownSec) :
    detectFailover cfg st p now =
      ((false, none, none), { st with lastPool := some p }) ∧
    ((detectFailover cfg st p now).2.lastAlertTime = st.lastAlertTime) := by
  have h : detectFailover cfg st p now =
      ((false, none, none), { st with lastPool := some p }) := by
    simp [detectFailover, hm, hv, hi, hq, hne, hdiff, hcool]
  exact ⟨h, by rw [h]⟩

/-- Witness for C5: tracking "blue" with the last alert at 50, observing
"green" at 100 (inside the 300 s cooldown) is silent but moves the
last-known pool to "green", keeping `last_alert_time = 50`. -/
theorem c5_witness :
    detectFailover defaultConfig
      { lastPool := some "blue", lastAlertTime := 50, initialized := true }
      "green" 100 =
      ((false, none, none),
        { lastPool := some "green", lastAlertTime := 50, initialized := true }) :=
  (c5_cooldown_silent_tracking defaultConfig
    { lastPool := some "blue", lastAlertTime := 50, initialized := true }
    "green" "blue" 100 rfl (by decide) rfl rfl (by decide) (by decide)
    (by norm_num [defaultConfig])).1

/-- Counterexample to C6: under maintenance mode the failover detector does
NOT keep tracking the observed pool.  A detector tracking "blue" that
observes "green" during maintenance returns no event but leaves its state
completely unchanged — the last-known pool stays "blue" instead of moving
to "green" as the claim asserts. -/
theorem c6_counterexample :
    detectFailover { defaultConfig with maintenanceMode := true }
        { lastPool := some "blue", lastAlertTime := 0, initialized := true }
        "green" 1000 =
      ((false, none, none),
        { lastPool := some "blue", lastAlertTime := 0, initialized := true }) ∧
    (detectFailover { defaultConfig with maintenanceMode := true }
        { lastPool := some "blue", lastAlertTime := 0, initialized := true }
        "green" 1000).2.lastPool ≠ some "green" := by
  exact ⟨rfl, by decide⟩

/-- C6 (amended): when maintenance mode is active, both detectors return
"no alert" for every call: `detect_failover` returns (False, None, None)
and `should_alert` returns False, each leaving its state unchanged — so the
failover detector does NOT track the observed pool during maintenance.
Error-window observation does continue: `add_request` has no maintenance
check and appends the classified flag regardless. -/
theorem c6_maintenance_suppression (cfg : Config)
    (hm : cfg.maintenanceMode = true) (fst : FailoverState)
    (est : ErrorMonitorState) (p : String) (now : ℚ) (c : ℤ)
    (u : Option String) :
    detectFailover cfg fst p now = ((false, none, none), fst) ∧
    shouldAlert cfg est now = (false, est) ∧
    (addRequest cfg est c u).requestWindow =
      pushFlag cfg est.requestWindow (isErrorRequest c u) := by
  refine ⟨?_, ?_, rfl⟩ <;> simp [detectFailover, shouldAlert, hm]

/-- Witness for C6 (amended): during maintenance, a detector tracking
"blue" observing "green" and a monitor with a full all-error window both
stay silent and unchanged, while `add_request` still grows the window. -/
theorem c6_witness :
    detectFailover { defaultConfig with maintenanceMode := true }
        { lastPool := some "blue", lastAlertTime := 0, initialized := true }
        "green" 500 =
      ((false, none, none),
        { lastPool := some "blue", lastAlertTime := 0, initialized := true }) ∧
    shouldAlert { defaultConfig with maintenanceMode := true }
        { requestWindow := [true, true], lastAlertTime := 0,
          alertActive := false } 500 =
      (false,
        { requestWindow := [true, true], lastAlertTime := 0,
          alertActive := false }) ∧
    (addRequest { defaultConfig with maintenanceMode := true }
        { requestWindow := [true, true], lastAlertTime := 0,
          alertActive := false } 503 none).requestWindow =
      pushFlag { defaultConfig with maintenanceMode := true }
        [true, true] (isErrorRequest 503 none) :=
  c6_maintenance_suppression { defaultConfig with maintenanceMode := true }
    rfl { lastPool := some "blue", lastAlertTime := 0, initialized := true }
    { requestWindow := [true, true], lastAlertTime := 0, alertActive := false }
    "green" 500 503 none

/-- Counterexample to C7: `ACTIVE_POOL` does not seed the detector.  After
`FailoverDetector.__init__` and before any observation, the last-known pool
is `None`, not the configured active pool ("blue" by default). -/
theorem c7_counterexample :
    FailoverState.init.lastPool = none ∧
    defaultConfig.activePool = "blue" ∧
    FailoverState.init.lastPool ≠ some defaultConfig.activePool :=
  ⟨rfl, rfl, by decide⟩

/-- C7 (amended): the `ACTIVE_POOL` configuration value (default "blue") is
read from the environment but never seeds the detector: after startup and
before any observation the detector's last-known pool is `None` and it is
uninitialized; the baseline is instead adopted from the first valid
observed pool. -/
theorem c7_baseline_from_first_observation (cfg : Config) (p : String)
    (now : ℚ) (hm : cfg.maintenanceMode = false) (hv : isValidPool p = true) :
    FailoverState.init.lastPool = none ∧
    FailoverState.init.initialized = false ∧
    (detectFailover cfg FailoverState.init p now).2.lastPool = some p := by
  refine ⟨rfl, rfl, ?_⟩
  simp [detectFailover, FailoverState.init, hm, hv]

/-- Witness for C7 (amended): with the default configuration, the first
valid observation "green" (not the configured "blue") becomes the
baseline. -/
theorem c7_witness :
    FailoverState.init.lastPool = none ∧
    FailoverState.init.initialized = false ∧
    (detectFailover defaultConfig FailoverState.init "green" 3).2.lastPool =
      some "green" :=
  c7_baseline_from_first_observation defaultConfig "green" 3 rfl (by decide)

/-- C8: once a dispatch attempt of a given alert type reaches the transport
(webhook configured, maintenance off, per-type cooldown passed), an HTTP 200
response records `now` as that type's last-fired instant and yields `True`;
any other response, a transport failure or a timeout yields `False` with the
cooldown bookkeeping untouched, so the next qualifying event may retry. -/
theorem c8_dispatch_transport (cfg : Config) (st : AlertHandlerState)
    (alertType : String) (now : ℚ) (resp : TransportOutcome)
    (hurl : cfg.slackWebhookUrl ≠ "") (hm : cfg.maintenanceMode = false)
    (hcool : ∀ t, lookupAlertTime st alertType = some t →
      cfg.alertCooldownSec ≤ now - t) :
    (resp = some 200 →
      sendSlackAlert cfg st alertType now resp =
        (true, setAlertTime st alertType now) ∧
      lookupAlertTime (sendSlackAlert cfg st alertType now resp).2 alertType =
        some now) ∧
    (resp ≠ some 200 →
      sendSlackAlert cfg st alertType now resp = (false, st)) := by
  have hmain : sendSlackAlert cfg st alertType now resp =
      deliverAlert st alertType now resp := by
    unfold sendSlackAlert
    rw [if_neg hurl, if_neg (by simp [hm])]
    cases hl : lookupAlertTime st alertType with
    | none => rfl
    | some t =>
        show (if now - t < cfg.alertCooldownSec then (false, st)
            else deliverAlert st alertType now resp) =
          deliverAlert st alertType now resp
        rw [if_neg (not_lt.mpr (hcool t hl))]
  constructor
  · rintro rfl
    refine ⟨by rw [hmain]; rfl, ?_⟩
    rw [hmain]
    show lookupAlertTime (setAlertTime st alertType now) alertType = some now
    simp [lookupAlertTime, setAlertTime]
  · intro hne
    rw [hmain]
    cases resp with
    | none => rfl
    | some code =>
        have hcode : code ≠ 200 := fun h => hne (by rw [h])
        simp [deliverAlert, hcode]

/-- Witness for C8: with a configured webhook, maintenance off and no prior
alert of this type, a 200 response makes the dispatcher return `True` and
record the send time. -/
theorem c8_witness :
    sendSlackAlert { defaultConfig with slackWebhookUrl := "hook" }
        AlertHandlerState.init "error_rate" 10 (some 200) =
      (true, setAlertTime AlertHandlerState.init "error_rate" 10) :=
  ((c8_dispatch_transport { defaultConfig with slackWebhookUrl := "hook" }
      AlertHandlerState.init "error_rate" 10 (some 200) (by decide) rfl
      (fun t ht => by
        simp [lookupAlertTime, AlertHandlerState.init] at ht)).1 rfl).1

/-- C9 — the code violates it: `tail_logs` reads with `readline()`, which
at end-of-file returns a partial line that has no terminating newline yet,
and the loop passes any non-empty line straight to `process_line`.  On a
file whose current content is a half-written line, one loop iteration
processes that very line even though no `\x0a` terminator is present. -/
theorem c9_halfline_processed :
    tailStep "10.0.0.7 - - [04/Nov/2025:10:57:46 +0000] GET /index.html".toList
        0 =
      (some "10.0.0.7 - - [04/Nov/2025:10:57:46 +0000] GET /index.html".toList,
        "10.0.0.7 - - [04/Nov/2025:10:57:46 +0000] GET /index.html".toList.length) ∧
    Char.ofNat 10 ∉
      "10.0.0.7 - - [04/Nov/2025:10:57:46 +0000] GET /index.html".toList := by
  constructor <;> decide

end Watcher
